import Mathlib

/-!
Verification development for the darkflare server (src/server/main.go).

The Go source is shallowly embedded as pure Lean functions.  Effects are
made explicit:

* the HTTP request is a record of the headers and body the handler reads;
* the backend TCP connection is an oracle: a dial outcome, a write
  outcome, and a list of read outcomes consumed by the GET drain loop;
* the session table (a sync.Map in the source) is an association list
  with unique keys, with atomic Load and Store modelled as lookup and
  keyed replacement;
* wall-clock time is a natural number of seconds (time units only enter
  through differences, so the choice of epoch is irrelevant); the
  per-read socket deadline is tracked in milliseconds as trace events;
* the application-mode subprocess is an oracle giving the pipe-creation,
  start and wait outcomes and the lines its stdout and stderr produce.

Every definition mirrors the corresponding lines of src/server/main.go,
cited in the doc comments.
-/

/-- Bytes are modelled as Fin 256, matching the Go byte type. -/
abbrev Byte := Fin 256

/-- HTTP method as the handler distinguishes it.  The source checks
only r.Method == http.MethodPost (main.go line 244); every other method
falls through to the GET drain path (line 272), so the embedding folds
all non-POST methods into get. -/
inductive Method
  | post
  | get
deriving Repr, DecidableEq

/-- One HTTP request as seen by handleRequest: the three recognized
headers (main.go lines 183, 203, 206, 209) and the request body
(line 245).  Reading the body is modelled as already done: io.ReadAll
failures are not modelled. -/
structure Request where
  method : Method
  path : String
  xEphemeral : String
  cfRay : String
  cfConnectingIp : String
  body : List Byte
deriving Repr, DecidableEq

/-- Server configuration (the Server struct, main.go lines 49-57,
without the session table, which is passed separately). -/
structure Config where
  destHost : String
  destPort : String
  debug : Bool
  appCommand : String
  allowDirect : Bool
deriving Repr, DecidableEq

/-- isAppMode is computed, not stored: NewServer sets
isAppMode := appCommand != "" (main.go line 65). -/
def Config.isAppMode (c : Config) : Bool := c.appCommand != ""

/-- Session record (main.go lines 42-47).  The net.Conn is abstracted to
a numeric connection identifier; the buffer field is kept because the
source declares it (it is write-only dead state). -/
structure Session where
  connId : Nat
  lastActive : Nat
  buffer : List Byte
deriving Repr, DecidableEq

/-- The session table: sync.Map from session id to session record
(main.go line 50), as an association list with unique keys. -/
abbrev SessionTable := List (String × Session)

/-- sync.Map.Load (main.go line 222). -/
def lookupSession : SessionTable → String → Option Session
  | [], _ => none
  | (k, s) :: rest, key => if k = key then some s else lookupSession rest key

/-- sync.Map.Store (main.go line 235): replaces the entry for the key if
present, otherwise appends it. -/
def storeSession : SessionTable → String → Session → SessionTable
  | [], key, v => [(key, v)]
  | (k, s) :: rest, key, v =>
    if k = key then (key, v) :: rest else (k, s) :: storeSession rest key v

/-- Outcome of net.Dial to the configured destination (main.go line 224). -/
inductive DialResult
  | okD (connId : Nat)
  | errD (msg : String)
deriving Repr, DecidableEq

/-- Outcome of session.conn.Write for a POST body (main.go line 260). -/
inductive WriteResult
  | okW
  | errW (msg : String)
deriving Repr, DecidableEq

/-- Outcome of one session.conn.Read call inside the GET drain loop
(main.go line 278).  bytes bs is a successful read of bs (err == nil,
n = bs.length); eofR is io.EOF; timeoutR is a net.Error with
Timeout() true; fatal is any other error. -/
inductive ReadResult
  | bytes (bs : List Byte)
  | eofR
  | timeoutR
  | fatal (msg : String)
deriving Repr, DecidableEq

/-- True for read outcomes that are neither success, EOF nor timeout. -/
def isFatalRead : ReadResult → Bool
  | ReadResult.fatal _ => true
  | _ => false

/-- Number of bytes a read outcome delivers. -/
def readLen : ReadResult → Nat
  | ReadResult.bytes bs => bs.length
  | _ => 0

/-- A read that fills the whole 8192-byte buffer (main.go line 273). -/
def isFullChunk : ReadResult → Bool
  | ReadResult.bytes bs => bs.length == 8192
  | _ => false

/-- The bytes a read outcome contributes to readData (main.go line 296). -/
def chunkBytes : ReadResult → List Byte
  | ReadResult.bytes bs => bs
  | _ => []

/-- A read outcome on which the drain loop stops: an error return
(EOF, timeout or fatal, main.go lines 279-288) or a short read
(n < len(buffer), main.go line 298). -/
def stopRead : ReadResult → Bool
  | ReadResult.bytes bs => decide (bs.length < 8192)
  | _ => true

/-- Observable connection operations performed by the drain loop:
setting the read deadline (milliseconds from now, main.go line 277) and
issuing a read (line 278). -/
inductive DrainEvent
  | setReadDeadline (millis : Nat)
  | readCall (res : ReadResult)
deriving Repr, DecidableEq

/-- The GET drain loop (main.go lines 272-301).  Each iteration sets a
50 ms read deadline, reads into the fixed 8192-byte buffer, appends the
bytes read, and stops on an error return (500 on a fatal error, normal
stop on EOF or timeout) or on a short read.  The first component is the
trace of connection operations, the second the accumulated bytes or the
fatal error text.  An exhausted oracle ends the loop; theorems that
characterize termination therefore quantify over oracles that contain a
stopping element. -/
def drain : List ReadResult → List DrainEvent × Except String (List Byte)
  | [] => ([], Except.ok [])
  | r :: rest =>
    match r with
    | ReadResult.fatal msg =>
      ([DrainEvent.setReadDeadline 50, DrainEvent.readCall r], Except.error msg)
    | ReadResult.eofR =>
      ([DrainEvent.setReadDeadline 50, DrainEvent.readCall r], Except.ok [])
    | ReadResult.timeoutR =>
      ([DrainEvent.setReadDeadline 50, DrainEvent.readCall r], Except.ok [])
    | ReadResult.bytes bs =>
      if bs.length < 8192 then
        ([DrainEvent.setReadDeadline 50, DrainEvent.readCall r], Except.ok bs)
      else
        let res := drain rest
        (DrainEvent.setReadDeadline 50 :: DrainEvent.readCall r :: res.fst,
         match res.snd with
         | Except.error m => Except.error m
         | Except.ok tail => Except.ok (bs ++ tail))

/-- The prefix of a list up to and including the first element on which
p holds (the whole list if p never holds). -/
def takeThrough (p : α → Bool) : List α → List α
  | [] => []
  | x :: xs => if p x then [x] else x :: takeThrough p xs

/-- Lowercase hex digit for a value below 16 (hex.EncodeToString uses
the lowercase alphabet: 48 is the code of the zero digit, 87 + 10 the
code of the letter a). -/
def hexDigit (n : Nat) : Char :=
  if n < 10 then Char.ofNat (48 + n)
  else if n < 16 then Char.ofNat (87 + n)
  else '0'

/-- Two lowercase hex characters for one byte, high nibble first. -/
def byteToHex (b : Byte) : List Char :=
  [hexDigit (b.val / 16), hexDigit (b.val % 16)]

/-- hex.EncodeToString (main.go line 305). -/
def hexEncode (bs : List Byte) : String :=
  String.mk (List.flatten (bs.map byteToHex))

/-- Value of one lowercase hex character, by its character code. -/
def hexDigitVal (c : Char) : Option Nat :=
  if '0' ≤ c ∧ c ≤ '9' then some (c.toNat - 48)
  else if 'a' ≤ c ∧ c ≤ 'f' then some (c.toNat - 87)
  else none

/-- Modelled from the spec: hex_decode, the inverse direction of the
round-trip law "hex_decode(GET_body) == raw_backend_output".  The
decoder itself is not part of the server source. -/
def hexDecodeChars : List Char → Option (List Byte)
  | [] => some []
  | [_] => none
  | c1 :: c2 :: rest =>
    (hexDigitVal c1).bind fun h =>
      (hexDigitVal c2).bind fun l =>
        (hexDecodeChars rest).map fun bs =>
          ⟨(h * 16 + l) % 256, Nat.mod_lt _ (by decide)⟩ :: bs

/-- Modelled from the spec: hex_decode on a string. -/
def hexDecode (s : String) : Option (List Byte) :=
  hexDecodeChars s.data

/-- Character class of the lowercase hex alphabet. -/
def isLowerHex (c : Char) : Bool :=
  c.isDigit || (decide ('a' ≤ c) && decide (c ≤ 'f'))

/-- Session-id derivation (main.go lines 203-211): X-Ephemeral, then
Cf-Ray, then Cf-Connecting-Ip, first non-empty wins. -/
def sessionIdOf (r : Request) : String :=
  if r.xEphemeral == "" then
    (if r.cfRay == "" then r.cfConnectingIp else r.cfRay)
  else r.xEphemeral

/-- The admission-filter condition (main.go line 184):
cfConnecting == "" && !s.allowDirect. -/
def admissionBlocked (cfg : Config) (req : Request) : Bool :=
  req.cfConnectingIp == "" && !cfg.allowDirect

/-- Everything a handler invocation observably produces: the HTTP
status and body, whether the Apache-decoration block (main.go
lines 190-200) ran, the session table after the request, the number of
session-table Load calls, the connections dialed, the backend writes
performed (conn id and bytes, main.go line 260), the drain-loop trace,
the number of subprocesses started, and the log lines produced by
draining subprocess stdout and stderr. -/
structure Outcome where
  status : Nat
  body : String
  decorated : Bool
  table : SessionTable
  lookups : Nat
  dialed : List Nat
  wrote : List (Nat × List Byte)
  drainEvents : List DrainEvent
  spawned : Nat
  logs : List String
deriving Repr, DecidableEq

/-- Outcome of a handler that has done nothing yet: status 200 with an
empty body is what net/http sends when the handler returns without
calling WriteHeader. -/
def baseOutcome (tbl : SessionTable) : Outcome :=
  { status := 200, body := "", decorated := false, table := tbl,
    lookups := 0, dialed := [], wrote := [], drainEvents := [],
    spawned := 0, logs := [] }

/-- http.Error: sets the status and writes the message as the body.
(Go appends a newline to the message; the embedding identifies the body
with the message text.) -/
def httpError (o : Outcome) (msg : String) (code : Nat) : Outcome :=
  { o with status := code, body := msg }

/-- The per-session part of handleRequest, entered with the session
mutex held (main.go lines 240-321): lastActive is set to now before any
backend I/O (line 242), then POST writes the non-empty body to the
backend (lines 244-270) and GET drains and hex-encodes (lines 272-321).
Since the Go session is a pointer shared with the table, the lastActive
update is modelled as a keyed store back into the table. -/
def sessionBody (req : Request) (tbl : SessionTable) (sid : String)
    (sess : Session) (now : Nat) (wr : WriteResult)
    (reads : List ReadResult) (o : Outcome) : Outcome :=
  let sess2 : Session := { sess with lastActive := now }
  let o := { o with table := storeSession tbl sid sess2 }
  match req.method with
  | Method.post =>
    if req.body.isEmpty then o
    else
      let o := { o with wrote := [(sess2.connId, req.body)] }
      match wr with
      | WriteResult.okW => o
      | WriteResult.errW msg => httpError o msg 500
  | Method.get =>
    let o := { o with drainEvents := (drain reads).fst }
    match (drain reads).snd with
    | Except.error msg => httpError o msg 500
    | Except.ok bs => { o with body := hexEncode bs }

/-- The proxy-mode request handler (main.go lines 167-321, after the
application-mode dispatch): admission filter (lines 183-187), header
decoration (lines 190-200), session-id derivation (lines 203-219),
table lookup with dial-and-store on a miss (lines 221-238), then the
per-session body. -/
def handleProxy (cfg : Config) (req : Request) (tbl : SessionTable)
    (now : Nat) (dial : DialResult) (wr : WriteResult)
    (reads : List ReadResult) : Outcome :=
  if admissionBlocked cfg req then
    httpError (baseOutcome tbl) "Direct access not allowed" 403
  else
    let o := { baseOutcome tbl with decorated := true }
    if sessionIdOf req == "" then
      httpError o "Missing session ID" 400
    else
      let o := { o with lookups := 1 }
      match lookupSession tbl (sessionIdOf req) with
      | some sess => sessionBody req tbl (sessionIdOf req) sess now wr reads o
      | none =>
        match dial with
        | DialResult.errD msg => httpError o msg 500
        | DialResult.okD cid =>
          let sess : Session := { connId := cid, lastActive := now, buffer := [] }
          sessionBody req (storeSession tbl (sessionIdOf req) sess)
            (sessionIdOf req) sess now wr reads
            { o with dialed := [cid],
                     table := storeSession tbl (sessionIdOf req) sess }

/-- strings.Fields: split on whitespace, dropping empty fields. -/
def fieldsAux : List Char → List Char → List String
  | [], acc => if acc.isEmpty then [] else [String.mk acc.reverse]
  | c :: cs, acc =>
    if c.isWhitespace then
      if acc.isEmpty then fieldsAux cs []
      else String.mk acc.reverse :: fieldsAux cs []
    else fieldsAux cs (c :: acc)

/-- strings.Fields on a string (main.go line 99). -/
def goFields (s : String) : List String := fieldsAux s.data []

/-- Pipe-creation outcome for the subprocess stdout or stderr
(main.go lines 112, 119). -/
inductive PipeResult
  | okP
  | errP (msg : String)
deriving Repr, DecidableEq

/-- cmd.Start outcome (main.go line 126). -/
inductive StartResult
  | okS
  | errS (msg : String)
deriving Repr, DecidableEq

/-- cmd.Wait outcome (main.go line 158): zero exit, or an error
(non-zero exit or wait failure). -/
inductive WaitResult
  | exitZero
  | exitErr (msg : String)
deriving Repr, DecidableEq

/-- The subprocess oracle for one application-mode request: outcomes of
the two pipe creations, of Start and of Wait, and the lines the spawned
process writes to stdout and stderr. -/
structure AppEnv where
  stdoutPipe : PipeResult
  stderrPipe : PipeResult
  start : StartResult
  wait : WaitResult
  stdoutLines : List String
  stderrLines : List String
deriving Repr, DecidableEq

/-- handleApplication (main.go lines 94-165): tokenize the configured
command; 500 on an empty token list; 500 on pipe-creation or Start
failure; otherwise the process runs, its stdout and stderr are drained
line by line to the log when debug is set (lines 132-156), and Wait
decides the response: 200 with empty body on zero exit, 500 with the
error text otherwise.  The session table is never touched. -/
def handleApplication (cfg : Config) (env : AppEnv) (tbl : SessionTable) : Outcome :=
  let o := baseOutcome tbl
  if (goFields cfg.appCommand).isEmpty then
    httpError o "Invalid application command" 500
  else
    match env.stdoutPipe with
    | PipeResult.errP msg => httpError o msg 500
    | PipeResult.okP =>
      match env.stderrPipe with
      | PipeResult.errP msg => httpError o msg 500
      | PipeResult.okP =>
        match env.start with
        | StartResult.errS msg => httpError o msg 500
        | StartResult.okS =>
          let o := { o with
            spawned := 1,
            logs :=
              if cfg.debug then
                env.stdoutLines.map (fun l => "Application stdout: " ++ l)
                  ++ env.stderrLines.map (fun l => "Application stderr: " ++ l)
              else [] }
          match env.wait with
          | WaitResult.exitZero => o
          | WaitResult.exitErr msg => httpError o msg 500

/-- handleRequest (main.go lines 167-171 and onward): application-mode
requests are dispatched to handleApplication before anything else; all
other requests go through the proxy path. -/
def handleRequest (cfg : Config) (req : Request) (tbl : SessionTable)
    (now : Nat) (dial : DialResult) (wr : WriteResult)
    (reads : List ReadResult) (env : AppEnv) : Outcome :=
  if cfg.isAppMode then handleApplication cfg env tbl
  else handleProxy cfg req tbl now dial wr reads

/-- Idle limit of the reaper: 5*time.Minute in seconds (main.go line 84). -/
def idleLimitSeconds : Nat := 300

/-- Reaper period: time.Sleep(time.Minute) in seconds (main.go line 79). -/
def reaperIntervalSeconds : Nat := 60

/-- One pass of cleanupSessions (main.go lines 80-90): with a single
now sampled before the sweep, every record with now - lastActive
strictly above the idle limit has its connection closed and its entry
deleted; all other records are untouched.  Returns the surviving table
and the list of closed connection ids. -/
def cleanupPass : SessionTable → Nat → SessionTable × List Nat
  | [], _ => ([], [])
  | (k, s) :: rest, now =>
    let r := cleanupPass rest now
    if now - s.lastActive > idleLimitSeconds then (r.fst, s.connId :: r.snd)
    else ((k, s) :: r.fst, r.snd)

/-- One sleep-then-sweep iteration of the cleanupSessions loop
(main.go lines 78-91): advance the clock by the reaper period, then
run one pass. -/
def reaperStep (st : SessionTable × Nat) : SessionTable × Nat :=
  let t := st.snd + reaperIntervalSeconds
  ((cleanupPass st.fst t).fst, t)

/-- Position of one handler inside the session-creation code
(main.go lines 221-238), used to interleave two handlers that carry
the same not-yet-seen session id.  atLoad is about to call
sessions.Load (line 222); atDial observed a miss and is about to call
net.Dial (line 224); atStore holds a freshly dialed connection and is
about to call sessions.Store (line 235); haveSession has its session
pointer and proceeds.  The source contains no Close call anywhere on
this path, so the model has no closing transition. -/
inductive CreatePhase
  | atLoad
  | atDial
  | atStore (connId : Nat)
  | haveSession (connId : Nat)
deriving Repr, DecidableEq

/-- Shared state of the two racing handlers: the table entry for the
contested session id (the conn id it stores), the set of dialed
connections still open, the connections that have been closed, and the
position of each handler. -/
structure RaceState where
  entry : Option Nat
  openConns : List Nat
  closedConns : List Nat
  thread0 : CreatePhase
  thread1 : CreatePhase
deriving Repr, DecidableEq

/-- One atomic step of the chosen handler (tid false is handler 0,
dialing conn 10; tid true is handler 1, dialing conn 20).  Load and
Store are the atomic sync.Map operations of main.go lines 222 and 235;
the dial step records the fresh connection as open. -/
def raceStep (s : RaceState) (tid : Bool) : RaceState :=
  let ph := if tid then s.thread1 else s.thread0
  let set := fun (s : RaceState) p =>
    if tid then { s with thread1 := p } else { s with thread0 := p }
  match ph with
  | CreatePhase.atLoad =>
    match s.entry with
    | some c => set s (CreatePhase.haveSession c)
    | none => set s CreatePhase.atDial
  | CreatePhase.atDial =>
    let cid := if tid then 20 else 10
    set { s with openConns := s.openConns ++ [cid] } (CreatePhase.atStore cid)
  | CreatePhase.atStore cid =>
    set { s with entry := some cid } (CreatePhase.haveSession cid)
  | CreatePhase.haveSession _ => s

/-- Run a schedule of interleaved steps. -/
def raceRun (sched : List Bool) (s : RaceState) : RaceState :=
  sched.foldl raceStep s

/-- Both handlers at the top of the creation path, empty table, no
connections. -/
def raceInit : RaceState :=
  { entry := none, openConns := [], closedConns := [],
    thread0 := CreatePhase.atLoad, thread1 := CreatePhase.atLoad }

/-! ## Concrete sample values used by the witness theorems -/

/-- Proxy-mode configuration with allow-direct set. -/
def cfgW : Config :=
  { destHost := "127.0.0.1", destPort := "22", debug := false,
    appCommand := "", allowDirect := true }

/-- Proxy-mode configuration without allow-direct. -/
def cfgNoDirW : Config :=
  { destHost := "127.0.0.1", destPort := "22", debug := false,
    appCommand := "", allowDirect := false }

/-- Application-mode configuration. -/
def cfgAppW : Config :=
  { destHost := "", destPort := "", debug := false,
    appCommand := "cat -u", allowDirect := false }

/-- Subprocess oracle in which everything succeeds. -/
def envW : AppEnv :=
  { stdoutPipe := PipeResult.okP, stderrPipe := PipeResult.okP,
    start := StartResult.okS, wait := WaitResult.exitZero,
    stdoutLines := [], stderrLines := [] }

/-- A sample session record. -/
def sessW : Session := { connId := 7, lastActive := 3, buffer := [] }

/-- A table holding the sample session under id "sid". -/
def tblW : SessionTable := [("sid", sessW)]

/-- A GET request carrying session id "sid". -/
def reqGetW : Request :=
  { method := Method.get, path := "/p", xEphemeral := "sid", cfRay := "",
    cfConnectingIp := "1.2.3.4", body := [] }

/-- A POST request carrying session id "sid" and a two-byte body. -/
def reqPostW : Request :=
  { method := Method.post, path := "/p", xEphemeral := "sid", cfRay := "",
    cfConnectingIp := "1.2.3.4", body := [104, 105] }

/-- A request with every recognized header empty. -/
def reqEmptyW : Request :=
  { method := Method.get, path := "/", xEphemeral := "", cfRay := "",
    cfConnectingIp := "", body := [] }

/-- A read oracle: one full 8192-byte chunk, then a short read. -/
def readsW : List ReadResult :=
  [ReadResult.bytes (List.replicate 8192 0), ReadResult.bytes [1, 2]]

/-- A read oracle delivering two bytes then stopping on a short read. -/
def reads3W : List ReadResult := [ReadResult.bytes [104, 101]]

/-- A read oracle failing fatally on the first read. -/
def readsFW : List ReadResult := [ReadResult.fatal "conn reset"]

/-- A table with one stale and one fresh session for the reaper. -/
def tbl8W : SessionTable :=
  [("a", { connId := 1, lastActive := 0, buffer := [] }),
   ("b", { connId := 2, lastActive := 400, buffer := [] })]

/-! ## Association-list lemmas for the session table -/

theorem lookupSession_storeSession_self (t : SessionTable) (k : String) (v : Session) :
    lookupSession (storeSession t k v) k = some v := by
  induction t with
  | nil => simp [storeSession, lookupSession]
  | cons e rest ih =>
    obtain ⟨k1, s1⟩ := e
    by_cases h : k1 = k
    · simp [storeSession, lookupSession, h]
    · simp [storeSession, lookupSession, h, ih]

theorem lookupSession_storeSession_ne (t : SessionTable) (k k2 : String) (v : Session)
    (h : k2 ≠ k) :
    lookupSession (storeSession t k v) k2 = lookupSession t k2 := by
  have hk : k ≠ k2 := Ne.symm h
  induction t with
  | nil => simp [storeSession, lookupSession, hk]
  | cons e rest ih =>
    obtain ⟨k1, s1⟩ := e
    by_cases h1 : k1 = k
    · subst h1
      simp [storeSession, lookupSession, hk]
    · simp [storeSession, lookupSession, h1, ih]

/-! ## Hex encoding lemmas -/

theorem hexDigitVal_hexDigit (n : Nat) (h : n < 16) :
    hexDigitVal (hexDigit n) = some n := by
  interval_cases n <;> decide

theorem hexEncode_nil : hexEncode [] = "" := rfl

theorem hexEncode_cons (b : Byte) (bs : List Byte) :
    (hexEncode (b :: bs)).data = byteToHex b ++ (hexEncode bs).data := by
  simp [hexEncode]

theorem hexDecodeChars_hexEncode (bs : List Byte) :
    hexDecodeChars (hexEncode bs).data = some bs := by
  induction bs with
  | nil => rfl
  | cons b rest ih =>
    have hhi : b.val / 16 < 16 :=
      Nat.div_lt_of_lt_mul (by have := b.isLt; omega)
    have hlo : b.val % 16 < 16 := Nat.mod_lt _ (by decide)
    rw [hexEncode_cons]
    show hexDecodeChars
        (hexDigit (b.val / 16) :: hexDigit (b.val % 16) :: (hexEncode rest).data)
      = some (b :: rest)
    rw [hexDecodeChars, hexDigitVal_hexDigit _ hhi, hexDigitVal_hexDigit _ hlo, ih]
    simp only [Option.some_bind, Option.map_some', Option.some.injEq, List.cons.injEq,
      Fin.ext_iff]
    refine ⟨?_, trivial⟩
    show (b.val / 16 * 16 + b.val % 16) % 256 = b.val
    rw [Nat.mul_comm, Nat.div_add_mod, Nat.mod_eq_of_lt b.isLt]

theorem hexDecode_hexEncode (bs : List Byte) :
    hexDecode (hexEncode bs) = some bs :=
  hexDecodeChars_hexEncode bs

theorem isLowerHex_hexDigit (n : Nat) (h : n < 16) : isLowerHex (hexDigit n) = true := by
  interval_cases n <;> decide

theorem byteToHex_lowerHex (b : Byte) : (byteToHex b).all isLowerHex = true := by
  have hhi : b.val / 16 < 16 :=
    Nat.div_lt_of_lt_mul (by have := b.isLt; omega)
  have hlo : b.val % 16 < 16 := Nat.mod_lt _ (by decide)
  simp [byteToHex, isLowerHex_hexDigit _ hhi, isLowerHex_hexDigit _ hlo]

theorem hexEncode_lowerHex (bs : List Byte) :
    (hexEncode bs).data.all isLowerHex = true := by
  induction bs with
  | nil => rfl
  | cons b rest ih =>
    rw [hexEncode_cons, List.all_append]
    rw [byteToHex_lowerHex b, ih]
    rfl

/-! ## Drain-loop lemmas -/

theorem drain_events (rs : List ReadResult) :
    (drain rs).fst = (takeThrough stopRead rs).flatMap
      (fun r => [DrainEvent.setReadDeadline 50, DrainEvent.readCall r]) := by
  induction rs with
  | nil => rfl
  | cons r rest ih =>
    cases r with
    | fatal m => simp [drain, takeThrough, stopRead]
    | eofR => simp [drain, takeThrough, stopRead]
    | timeoutR => simp [drain, takeThrough, stopRead]
    | bytes bs =>
      by_cases hb : bs.length < 8192
      · simp [drain, takeThrough, stopRead, hb]
      · simp [drain, takeThrough, stopRead, hb, ih]

theorem drain_ok (rs : List ReadResult)
    (hnf : ∀ r ∈ rs, isFatalRead r = false) :
    (drain rs).snd = Except.ok ((takeThrough stopRead rs).flatMap chunkBytes) := by
  induction rs with
  | nil => rfl
  | cons r rest ih =>
    have hr : isFatalRead r = false := hnf r (by simp)
    have hrest : ∀ x ∈ rest, isFatalRead x = false :=
      fun x hx => hnf x (by simp [hx])
    cases r with
    | fatal m => simp [isFatalRead] at hr
    | eofR => simp [drain, takeThrough, stopRead, chunkBytes]
    | timeoutR => simp [drain, takeThrough, stopRead, chunkBytes]
    | bytes bs =>
      by_cases hb : bs.length < 8192
      · simp [drain, takeThrough, stopRead, chunkBytes, hb]
      · simp [drain, takeThrough, stopRead, chunkBytes, hb, ih hrest]

theorem getD_mem (l : List α) (n : Nat) (d : α) (h : n < l.length) :
    l.getD n d ∈ l := by
  induction l generalizing n with
  | nil => simp at h
  | cons x xs ih =>
    cases n with
    | zero => simp
    | succ m =>
      simp only [List.getD_cons_succ]
      exact List.mem_cons_of_mem x (ih m (by simpa using h))

theorem lt_takeThrough_length_iff (p : α → Bool) (d : α) (l : List α) (i : Nat)
    (hi : i < l.length) :
    i < (takeThrough p l).length ↔ ∀ j, j < i → p (l.getD j d) = false := by
  induction l generalizing i with
  | nil => simp at hi
  | cons x xs ih =>
    by_cases hx : p x = true
    · simp only [takeThrough, if_pos hx, List.length_singleton]
      constructor
      · intro h1 j hj
        omega
      · intro hall
        by_contra hcon
        have h0 : p ((x :: xs).getD 0 d) = false := hall 0 (by omega)
        simp only [List.getD_cons_zero] at h0
        rw [hx] at h0
        exact absurd h0 (by simp)
    · have hx2 : p x = false := by
        cases hpx : p x
        · rfl
        · exact absurd hpx hx
      simp only [takeThrough, if_neg hx, List.length_cons]
      cases i with
      | zero => simp
      | succ n =>
        have hn : n < xs.length := by simpa using hi
        rw [Nat.succ_lt_succ_iff, ih n hn]
        constructor
        · intro hall j hj
          cases j with
          | zero => simpa using hx2
          | succ m =>
            simp only [List.getD_cons_succ]
            exact hall m (by omega)
        · intro hall j hj
          have := hall (j + 1) (by omega)
          simpa using this

/-! ## Handler path lemmas -/

theorem handleRequest_proxy (cfg : Config) (req : Request) (tbl : SessionTable)
    (now : Nat) (dial : DialResult) (wr : WriteResult) (reads : List ReadResult)
    (env : AppEnv) (hm : cfg.isAppMode = false) :
    handleRequest cfg req tbl now dial wr reads env =
      handleProxy cfg req tbl now dial wr reads := by
  simp [handleRequest, hm]

theorem handleRequest_app (cfg : Config) (req : Request) (tbl : SessionTable)
    (now : Nat) (dial : DialResult) (wr : WriteResult) (reads : List ReadResult)
    (env : AppEnv) (hm : cfg.isAppMode = true) :
    handleRequest cfg req tbl now dial wr reads env =
      handleApplication cfg env tbl := by
  simp [handleRequest, hm]

theorem handleProxy_blocked (cfg : Config) (req : Request) (tbl : SessionTable)
    (now : Nat) (dial : DialResult) (wr : WriteResult) (reads : List ReadResult)
    (ha : admissionBlocked cfg req = true) :
    handleProxy cfg req tbl now dial wr reads =
      httpError (baseOutcome tbl) "Direct access not allowed" 403 := by
  simp [handleProxy, ha]

theorem handleProxy_noSid (cfg : Config) (req : Request) (tbl : SessionTable)
    (now : Nat) (dial : DialResult) (wr : WriteResult) (reads : List ReadResult)
    (ha : admissionBlocked cfg req = false)
    (hsid : (sessionIdOf req == "") = true) :
    handleProxy cfg req tbl now dial wr reads =
      httpError { baseOutcome tbl with decorated := true } "Missing session ID" 400 := by
  simp [handleProxy, ha, hsid]

theorem handleProxy_hit (cfg : Config) (req : Request) (tbl : SessionTable)
    (now : Nat) (dial : DialResult) (wr : WriteResult) (reads : List ReadResult)
    (s : Session)
    (ha : admissionBlocked cfg req = false)
    (hsid : (sessionIdOf req == "") = false)
    (hs : lookupSession tbl (sessionIdOf req) = some s) :
    handleProxy cfg req tbl now dial wr reads =
      sessionBody req tbl (sessionIdOf req) s now wr reads
        { baseOutcome tbl with decorated := true, lookups := 1 } := by
  simp [handleProxy, ha, hsid, hs]

theorem handleProxy_missDialErr (cfg : Config) (req : Request) (tbl : SessionTable)
    (now : Nat) (wr : WriteResult) (reads : List ReadResult) (msg : String)
    (ha : admissionBlocked cfg req = false)
    (hsid : (sessionIdOf req == "") = false)
    (hs : lookupSession tbl (sessionIdOf req) = none) :
    handleProxy cfg req tbl now (DialResult.errD msg) wr reads =
      httpError { baseOutcome tbl with decorated := true, lookups := 1 } msg 500 := by
  simp [handleProxy, ha, hsid, hs]

theorem handleProxy_missDialOk (cfg : Config) (req : Request) (tbl : SessionTable)
    (now : Nat) (wr : WriteResult) (reads : List ReadResult) (cid : Nat)
    (ha : admissionBlocked cfg req = false)
    (hsid : (sessionIdOf req == "") = false)
    (hs : lookupSession tbl (sessionIdOf req) = none) :
    handleProxy cfg req tbl now (DialResult.okD cid) wr reads =
      sessionBody req
        (storeSession tbl (sessionIdOf req)
          { connId := cid, lastActive := now, buffer := [] })
        (sessionIdOf req)
        { connId := cid, lastActive := now, buffer := [] } now wr reads
        { baseOutcome tbl with decorated := true, lookups := 1, dialed := [cid],
                               table := storeSession tbl (sessionIdOf req)
                                 { connId := cid, lastActive := now, buffer := [] } } := by
  simp [handleProxy, ha, hsid, hs]

theorem sessionBody_post_empty (req : Request) (tbl : SessionTable) (sid : String)
    (sess : Session) (now : Nat) (wr : WriteResult) (reads : List ReadResult)
    (o : Outcome) (hpost : req.method = Method.post) (hb : req.body.isEmpty = true) :
    sessionBody req tbl sid sess now wr reads o =
      { o with table := storeSession tbl sid { sess with lastActive := now } } := by
  simp [sessionBody, hpost, hb]

theorem sessionBody_post_okW (req : Request) (tbl : SessionTable) (sid : String)
    (sess : Session) (now : Nat) (reads : List ReadResult)
    (o : Outcome) (hpost : req.method = Method.post) (hb : req.body.isEmpty = false) :
    sessionBody req tbl sid sess now WriteResult.okW reads o =
      { o with table := storeSession tbl sid { sess with lastActive := now },
               wrote := [(sess.connId, req.body)] } := by
  simp [sessionBody, hpost, hb]

theorem sessionBody_post_errW (req : Request) (tbl : SessionTable) (sid : String)
    (sess : Session) (now : Nat) (reads : List ReadResult) (msg : String)
    (o : Outcome) (hpost : req.method = Method.post) (hb : req.body.isEmpty = false) :
    sessionBody req tbl sid sess now (WriteResult.errW msg) reads o =
      httpError { o with table := storeSession tbl sid { sess with lastActive := now },
                         wrote := [(sess.connId, req.body)] } msg 500 := by
  simp [sessionBody, hpost, hb]

theorem sessionBody_get_ok (req : Request) (tbl : SessionTable) (sid : String)
    (sess : Session) (now : Nat) (wr : WriteResult) (reads : List ReadResult)
    (bs : List Byte) (o : Outcome) (hget : req.method = Method.get)
    (hd : (drain reads).snd = Except.ok bs) :
    sessionBody req tbl sid sess now wr reads o =
      { o with table := storeSession tbl sid { sess with lastActive := now },
               drainEvents := (drain reads).fst,
               body := hexEncode bs } := by
  simp [sessionBody, hget, hd]

theorem sessionBody_get_err (req : Request) (tbl : SessionTable) (sid : String)
    (sess : Session) (now : Nat) (wr : WriteResult) (reads : List ReadResult)
    (msg : String) (o : Outcome) (hget : req.method = Method.get)
    (hd : (drain reads).snd = Except.error msg) :
    sessionBody req tbl sid sess now wr reads o =
      httpError { o with table := storeSession tbl sid { sess with lastActive := now },
                         drainEvents := (drain reads).fst } msg 500 := by
  simp [sessionBody, hget, hd]

theorem handleApplication_table (cfg : Config) (env : AppEnv) (tbl : SessionTable) :
    (handleApplication cfg env tbl).table = tbl := by
  obtain ⟨sp, ep, st, wa, ol, el⟩ := env
  cases sp <;> cases ep <;> cases st <;> cases wa <;>
    simp [handleApplication, httpError, baseOutcome] <;>
    split <;> rfl

/-! ## Claim theorems -/

/-- C1, counterexample to the claim as stated: a proxy-mode request in
which all three session-id headers are empty, sent to a server without
allow-direct, is rejected by the admission filter with 403 "Direct
access not allowed", not with 400 "Missing session ID". -/
theorem c1_counterexample :
    (handleRequest
      { destHost := "127.0.0.1", destPort := "22", debug := false,
        appCommand := "", allowDirect := false }
      { method := Method.get, path := "/x", xEphemeral := "", cfRay := "",
        cfConnectingIp := "", body := [] }
      [] 0 (DialResult.okD 1) WriteResult.okW []
      { stdoutPipe := PipeResult.okP, stderrPipe := PipeResult.okP,
        start := StartResult.okS, wait := WaitResult.exitZero,
        stdoutLines := [], stderrLines := [] }).status = 403 ∧
    (handleRequest
      { destHost := "127.0.0.1", destPort := "22", debug := false,
        appCommand := "", allowDirect := false }
      { method := Method.get, path := "/x", xEphemeral := "", cfRay := "",
        cfConnectingIp := "", body := [] }
      [] 0 (DialResult.okD 1) WriteResult.okW []
      { stdoutPipe := PipeResult.okP, stderrPipe := PipeResult.okP,
        start := StartResult.okS, wait := WaitResult.exitZero,
        stdoutLines := [], stderrLines := [] }).status ≠ 400 := by
  constructor
  · rfl
  · decide

/-- C1 (amended): in proxy mode, for every request that passes the
admission filter, the session id is the first non-empty value among
X-Ephemeral, Cf-Ray, Cf-Connecting-Ip in that order; and when all three
are empty (which given admission requires allow-direct) the handler
responds 400 with body "Missing session ID" and performs no session
lookup, no session creation, and no backend I/O.  (As stated the claim
is false: without allow-direct such a request is rejected 403 by the
admission filter before session-id derivation; see the
counterexample.) -/
theorem c1_session_id_derivation (cfg : Config) (req : Request) (tbl : SessionTable)
    (now : Nat) (dial : DialResult) (wr : WriteResult) (reads : List ReadResult)
    (env : AppEnv) (out : Outcome)
    (hout : out = handleRequest cfg req tbl now dial wr reads env)
    (hm : cfg.isAppMode = false)
    (ha : admissionBlocked cfg req = false) :
    sessionIdOf req =
      (([req.xEphemeral, req.cfRay, req.cfConnectingIp].find?
        (fun h => h != "")).getD "")
    ∧ (req.xEphemeral = "" → req.cfRay = "" → req.cfConnectingIp = "" →
        out.status = 400 ∧ out.body = "Missing session ID" ∧ out.table = tbl ∧
        out.lookups = 0 ∧ out.dialed = [] ∧ out.wrote = [] ∧
        out.drainEvents = []) := by
  constructor
  · by_cases h1 : req.xEphemeral = ""
    · by_cases h2 : req.cfRay = ""
      · by_cases h3 : req.cfConnectingIp = ""
        · simp [sessionIdOf, h1, h2, h3]
        · simp [sessionIdOf, h1, h2, h3]
      · simp [sessionIdOf, h1, h2]
    · simp [sessionIdOf, h1]
  · intro he hr hc
    have hs0 : sessionIdOf req = "" := by simp [sessionIdOf, he, hr, hc]
    have hsid : (sessionIdOf req == "") = true := by simp [hs0]
    subst hout
    rw [handleRequest_proxy cfg req tbl now dial wr reads env hm,
      handleProxy_noSid cfg req tbl now dial wr reads ha hsid]
    simp [httpError, baseOutcome]

/-- C4: a POST on a live session whose backend write succeeds reads the
whole body and, exactly when the body is non-empty, performs a single
backend write of exactly those bytes on the session connection, then
returns 200 with an empty response body; an empty body performs no
write and still returns 200. -/
theorem c4_post_write (cfg : Config) (req : Request) (tbl : SessionTable)
    (now : Nat) (dial : DialResult) (wr : WriteResult) (reads : List ReadResult)
    (env : AppEnv) (out : Outcome) (s : Session)
    (hout : out = handleRequest cfg req tbl now dial wr reads env)
    (hm : cfg.isAppMode = false)
    (ha : admissionBlocked cfg req = false)
    (hsid : (sessionIdOf req == "") = false)
    (hs : lookupSession tbl (sessionIdOf req) = some s)
    (hpost : req.method = Method.post)
    (hwr : wr = WriteResult.okW) :
    out.status = 200 ∧ out.body = "" ∧
    out.wrote = (if req.body.isEmpty then [] else [(s.connId, req.body)]) ∧
    out.drainEvents = [] ∧ out.dialed = [] := by
  subst hout hwr
  rw [handleRequest_proxy cfg req tbl now dial WriteResult.okW reads env hm,
    handleProxy_hit cfg req tbl now dial WriteResult.okW reads s ha hsid hs]
  by_cases hb : req.body.isEmpty
  · rw [sessionBody_post_empty req tbl (sessionIdOf req) s now WriteResult.okW reads
      _ hpost hb]
    simp [baseOutcome, hb]
  · have hb2 : req.body.isEmpty = false := by
      cases hbe : req.body.isEmpty
      · rfl
      · exact absurd hbe hb
    rw [sessionBody_post_okW req tbl (sessionIdOf req) s now reads _ hpost hb2]
    simp [baseOutcome, hb2]

/-- C5: when a backend read during a GET drain fails with an error that
is neither EOF nor a timeout, the handler responds 500 with the error
text, and the session record stays in the table (with its lastActive
updated by this request); it is not evicted. -/
theorem c5_fatal_read_500 (cfg : Config) (req : Request) (tbl : SessionTable)
    (now : Nat) (dial : DialResult) (wr : WriteResult) (reads : List ReadResult)
    (env : AppEnv) (out : Outcome) (s : Session) (cid : Nat) (msg : String)
    (hout : out = handleRequest cfg req tbl now dial wr reads env)
    (hm : cfg.isAppMode = false)
    (ha : admissionBlocked cfg req = false)
    (hsid : (sessionIdOf req == "") = false)
    (hacq : lookupSession tbl (sessionIdOf req) = some s ∨
      (lookupSession tbl (sessionIdOf req) = none ∧ dial = DialResult.okD cid))
    (hget : req.method = Method.get)
    (hd : (drain reads).snd = Except.error msg) :
    out.status = 500 ∧ out.body = msg ∧
    ∃ s2, lookupSession out.table (sessionIdOf req) = some s2 ∧
      s2.lastActive = now := by
  subst hout
  rw [handleRequest_proxy cfg req tbl now dial wr reads env hm]
  rcases hacq with hs | ⟨hn, hdial⟩
  · rw [handleProxy_hit cfg req tbl now dial wr reads s ha hsid hs,
      sessionBody_get_err req tbl (sessionIdOf req) s now wr reads msg _ hget hd]
    refine ⟨rfl, rfl, { s with lastActive := now }, ?_, rfl⟩
    exact lookupSession_storeSession_self tbl (sessionIdOf req) _
  · subst hdial
    rw [handleProxy_missDialOk cfg req tbl now wr reads cid ha hsid hn,
      sessionBody_get_err req _ (sessionIdOf req) _ now wr reads msg _ hget hd]
    refine ⟨rfl, rfl, { connId := cid, lastActive := now, buffer := [] }, ?_, rfl⟩
    exact lookupSession_storeSession_self _ (sessionIdOf req) _

/-- C6: in proxy mode, a request whose Cf-Connecting-Ip header is empty
is rejected 403 "Direct access not allowed" before any session logic
(no decoration, no lookup, no dial, no backend I/O) when allow-direct
is unset; with allow-direct set the same request proceeds to session
handling, so if it also lacks the other session-id headers it gets 400,
not 403. -/
theorem c6_admission (cfg : Config) (req : Request) (tbl : SessionTable)
    (now : Nat) (dial : DialResult) (wr : WriteResult) (reads : List ReadResult)
    (env : AppEnv) (out : Outcome)
    (hout : out = handleRequest cfg req tbl now dial wr reads env)
    (hm : cfg.isAppMode = false)
    (hip : req.cfConnectingIp = "") :
    (cfg.allowDirect = false →
      out.status = 403 ∧ out.body = "Direct access not allowed" ∧
      out.decorated = false ∧ out.table = tbl ∧ out.lookups = 0 ∧
      out.dialed = [] ∧ out.wrote = [] ∧ out.drainEvents = []) ∧
    (cfg.allowDirect = true → req.xEphemeral = "" → req.cfRay = "" →
      out.status = 400 ∧ out.status ≠ 403 ∧ out.body = "Missing session ID") := by
  subst hout
  rw [handleRequest_proxy cfg req tbl now dial wr reads env hm]
  constructor
  · intro hdir
    have ha : admissionBlocked cfg req = true := by
      simp [admissionBlocked, hip, hdir]
    rw [handleProxy_blocked cfg req tbl now dial wr reads ha]
    simp [httpError, baseOutcome]
  · intro hdir he hr
    have ha : admissionBlocked cfg req = false := by
      simp [admissionBlocked, hdir]
    have hsid : (sessionIdOf req == "") = true := by
      simp [sessionIdOf, he, hr, hip]
    rw [handleProxy_noSid cfg req tbl now dial wr reads ha hsid]
    simp [httpError, baseOutcome]

theorem stopRead_false_iff_full (r : ReadResult) (hw : readLen r ≤ 8192) :
    stopRead r = false ↔ isFullChunk r = true := by
  cases r with
  | bytes bs =>
    simp only [stopRead, isFullChunk, readLen] at *
    simp only [decide_eq_false_iff_not, Nat.not_lt, beq_iff_eq]
    omega
  | eofR => simp [stopRead, isFullChunk]
  | timeoutR => simp [stopRead, isFullChunk]
  | fatal m => simp [stopRead, isFullChunk]

/-- C2: a GET on an existing session drains the backend with the fixed
8192-byte buffer and a 50 ms read deadline that is set immediately
before every read (the event trace is exactly one setReadDeadline 50
followed by one read, per iteration); assuming no read fails fatally
and no read overruns the buffer, read number i is issued exactly when
every earlier read returned a full 8192-byte chunk, so the loop stops
exactly at the first timeout, EOF, or short read, and the drained bytes
are the concatenation of the consumed chunks. -/
theorem c2_drain_loop (cfg : Config) (req : Request) (tbl : SessionTable)
    (now : Nat) (dial : DialResult) (wr : WriteResult) (reads : List ReadResult)
    (env : AppEnv) (out : Outcome) (s : Session)
    (hout : out = handleRequest cfg req tbl now dial wr reads env)
    (hm : cfg.isAppMode = false)
    (ha : admissionBlocked cfg req = false)
    (hsid : (sessionIdOf req == "") = false)
    (hs : lookupSession tbl (sessionIdOf req) = some s)
    (hget : req.method = Method.get)
    (hnf : ∀ r ∈ reads, isFatalRead r = false)
    (hwf : ∀ r ∈ reads, readLen r ≤ 8192) :
    out.drainEvents = (takeThrough stopRead reads).flatMap
      (fun r => [DrainEvent.setReadDeadline 50, DrainEvent.readCall r]) ∧
    (∀ i, i < reads.length →
      (i < (takeThrough stopRead reads).length ↔
        ∀ j, j < i → isFullChunk (reads.getD j ReadResult.timeoutR) = true)) ∧
    (drain reads).snd =
      Except.ok ((takeThrough stopRead reads).flatMap chunkBytes) := by
  have hok := drain_ok reads hnf
  subst hout
  rw [handleRequest_proxy cfg req tbl now dial wr reads env hm,
    handleProxy_hit cfg req tbl now dial wr reads s ha hsid hs,
    sessionBody_get_ok req tbl (sessionIdOf req) s now wr reads _ _ hget hok]
  refine ⟨drain_events reads, ?_, hok⟩
  intro i hi
  rw [lt_takeThrough_length_iff stopRead ReadResult.timeoutR reads i hi]
  constructor
  · intro hall j hj
    have hjlen : j < reads.length := by omega
    have hmem := getD_mem reads j ReadResult.timeoutR hjlen
    exact (stopRead_false_iff_full _ (hwf _ hmem)).mp (hall j hj)
  · intro hall j hj
    have hjlen : j < reads.length := by omega
    have hmem := getD_mem reads j ReadResult.timeoutR hjlen
    exact (stopRead_false_iff_full _ (hwf _ hmem)).mpr (hall j hj)

/-- C3: every GET that ends with status 200 carries as its body the
lowercase hex encoding of exactly the bytes the drain produced, in read
order: hex-decoding the body recovers them, every body character is a
lowercase hex character, and zero drained bytes give an empty body
(still with status 200). -/
theorem c3_get_hex_roundtrip (cfg : Config) (req : Request) (tbl : SessionTable)
    (now : Nat) (dial : DialResult) (wr : WriteResult) (reads : List ReadResult)
    (env : AppEnv) (out : Outcome)
    (hout : out = handleRequest cfg req tbl now dial wr reads env)
    (hm : cfg.isAppMode = false)
    (hget : req.method = Method.get)
    (h200 : out.status = 200) :
    ∃ bs, (drain reads).snd = Except.ok bs ∧
      out.body = hexEncode bs ∧
      hexDecode out.body = some bs ∧
      out.body.data.all isLowerHex = true ∧
      (bs = [] → out.body = "") := by
  subst hout
  rw [handleRequest_proxy cfg req tbl now dial wr reads env hm] at h200 ⊢
  by_cases ha : admissionBlocked cfg req = true
  · rw [handleProxy_blocked cfg req tbl now dial wr reads ha] at h200
    simp [httpError, baseOutcome] at h200
  · have ha2 : admissionBlocked cfg req = false := by
      cases hx : admissionBlocked cfg req
      · rfl
      · exact absurd hx ha
    by_cases hsid : (sessionIdOf req == "") = true
    · rw [handleProxy_noSid cfg req tbl now dial wr reads ha2 hsid] at h200
      simp [httpError, baseOutcome] at h200
    · have hsid2 : (sessionIdOf req == "") = false := by
        cases hx : (sessionIdOf req == "")
        · rfl
        · exact absurd hx hsid
      cases hl : lookupSession tbl (sessionIdOf req) with
      | some s =>
        rw [handleProxy_hit cfg req tbl now dial wr reads s ha2 hsid2 hl] at h200 ⊢
        cases hd : (drain reads).snd with
        | error m =>
          rw [sessionBody_get_err req tbl (sessionIdOf req) s now wr reads m _
            hget hd] at h200
          simp [httpError, baseOutcome] at h200
        | ok bs =>
          rw [sessionBody_get_ok req tbl (sessionIdOf req) s now wr reads bs _
            hget hd]
          refine ⟨bs, rfl, rfl, hexDecode_hexEncode bs, hexEncode_lowerHex bs, ?_⟩
          intro hbs
          subst hbs
          rfl
      | none =>
        cases dial with
        | errD m =>
          rw [handleProxy_missDialErr cfg req tbl now wr reads m ha2 hsid2 hl] at h200
          simp [httpError, baseOutcome] at h200
        | okD cid =>
          rw [handleProxy_missDialOk cfg req tbl now wr reads cid ha2 hsid2 hl]
            at h200 ⊢
          cases hd : (drain reads).snd with
          | error m =>
            rw [sessionBody_get_err req _ (sessionIdOf req) _ now wr reads m _
              hget hd] at h200
            simp [httpError, baseOutcome] at h200
          | ok bs =>
            rw [sessionBody_get_ok req _ (sessionIdOf req) _ now wr reads bs _
              hget hd]
            refine ⟨bs, rfl, rfl, hexDecode_hexEncode bs, hexEncode_lowerHex bs, ?_⟩
            intro hbs
            subst hbs
            rfl

theorem sessionBody_table (req : Request) (tbl : SessionTable) (sid : String)
    (sess : Session) (now : Nat) (wr : WriteResult) (reads : List ReadResult)
    (o : Outcome) :
    (sessionBody req tbl sid sess now wr reads o).table =
      storeSession tbl sid { sess with lastActive := now } := by
  obtain ⟨meth, pa, xe, cr, ci, body⟩ := req
  cases meth with
  | post =>
    by_cases hb : body.isEmpty = true
    · simp [sessionBody, hb]
    · have hb2 : body.isEmpty = false := by
        cases hx : body.isEmpty
        · rfl
        · exact absurd hx hb
      cases wr with
      | okW => simp [sessionBody, hb2]
      | errW m => simp [sessionBody, hb2, httpError]
  | get =>
    cases hd : (drain reads).snd with
    | error m => simp [sessionBody, hd, httpError]
    | ok bs => simp [sessionBody, hd]

theorem lookup_handleRequest_table (cfg : Config) (req : Request)
    (tbl : SessionTable) (now : Nat) (dial : DialResult) (wr : WriteResult)
    (reads : List ReadResult) (env : AppEnv) (k : String) :
    lookupSession (handleRequest cfg req tbl now dial wr reads env).table k =
      lookupSession tbl k ∨
    (k = sessionIdOf req ∧ ∃ s2,
      lookupSession (handleRequest cfg req tbl now dial wr reads env).table k
        = some s2 ∧ s2.lastActive = now) := by
  by_cases hm : cfg.isAppMode = true
  · left
    rw [handleRequest_app cfg req tbl now dial wr reads env hm,
      handleApplication_table]
  · have hm2 : cfg.isAppMode = false := by
      cases hx : cfg.isAppMode
      · rfl
      · exact absurd hx hm
    rw [handleRequest_proxy cfg req tbl now dial wr reads env hm2]
    by_cases ha : admissionBlocked cfg req = true
    · left
      rw [handleProxy_blocked cfg req tbl now dial wr reads ha]
      rfl
    · have ha2 : admissionBlocked cfg req = false := by
        cases hx : admissionBlocked cfg req
        · rfl
        · exact absurd hx ha
      by_cases hsid : (sessionIdOf req == "") = true
      · left
        rw [handleProxy_noSid cfg req tbl now dial wr reads ha2 hsid]
        rfl
      · have hsid2 : (sessionIdOf req == "") = false := by
          cases hx : (sessionIdOf req == "")
          · rfl
          · exact absurd hx hsid
        cases hl : lookupSession tbl (sessionIdOf req) with
        | some s =>
          rw [handleProxy_hit cfg req tbl now dial wr reads s ha2 hsid2 hl,
            sessionBody_table]
          by_cases hk : k = sessionIdOf req
          · right
            subst hk
            exact ⟨rfl, { s with lastActive := now },
              lookupSession_storeSession_self tbl (sessionIdOf req) _, rfl⟩
          · left
            exact lookupSession_storeSession_ne tbl (sessionIdOf req) k _ hk
        | none =>
          cases dial with
          | errD m =>
            left
            rw [handleProxy_missDialErr cfg req tbl now wr reads m ha2 hsid2 hl]
            rfl
          | okD cid =>
            rw [handleProxy_missDialOk cfg req tbl now wr reads cid ha2 hsid2 hl,
              sessionBody_table]
            by_cases hk : k = sessionIdOf req
            · right
              subst hk
              refine ⟨rfl, { connId := cid, lastActive := now, buffer := [] }, ?_, rfl⟩
              exact lookupSession_storeSession_self _ (sessionIdOf req) _
            · left
              rw [lookupSession_storeSession_ne _ (sessionIdOf req) k _ hk,
                lookupSession_storeSession_ne tbl (sessionIdOf req) k _ hk]

/-- C7, counterexample to the claim as stated: a POST whose backend
write fails (status 500, no successful interaction) nevertheless
updates the lastActive timestamp of the session record from 0 to the
request time 10, because the source sets lastActive before the backend
I/O (main.go line 242). -/
theorem c7_counterexample :
    (handleRequest
      { destHost := "h", destPort := "9", debug := false, appCommand := "",
        allowDirect := true }
      { method := Method.post, path := "/", xEphemeral := "s", cfRay := "",
        cfConnectingIp := "", body := [0] }
      [("s", { connId := 5, lastActive := 0, buffer := [] })]
      10 (DialResult.okD 99) (WriteResult.errW "broken pipe") []
      { stdoutPipe := PipeResult.okP, stderrPipe := PipeResult.okP,
        start := StartResult.okS, wait := WaitResult.exitZero,
        stdoutLines := [], stderrLines := [] }).status = 500 ∧
    lookupSession (handleRequest
      { destHost := "h", destPort := "9", debug := false, appCommand := "",
        allowDirect := true }
      { method := Method.post, path := "/", xEphemeral := "s", cfRay := "",
        cfConnectingIp := "", body := [0] }
      [("s", { connId := 5, lastActive := 0, buffer := [] })]
      10 (DialResult.okD 99) (WriteResult.errW "broken pipe") []
      { stdoutPipe := PipeResult.okP, stderrPipe := PipeResult.okP,
        start := StartResult.okS, wait := WaitResult.exitZero,
        stdoutLines := [], stderrLines := [] }).table "s" =
      some { connId := 5, lastActive := 10, buffer := [] } := by
  constructor
  · rfl
  · rfl

/-- C7 (amended): lastActive never decreases across a handler
invocation whose clock reading is at least the stored value, and it
records the time of the last request that reached the per-session I/O
phase: the update happens before the backend I/O, so a request whose
backend write fails (500) still sets lastActive to its own timestamp.
(The claim as stated, that a failed interaction does not count, is
refuted by the counterexample.) -/
theorem c7_last_active (cfg : Config) (req : Request) (tbl : SessionTable)
    (now : Nat) (dial : DialResult) (wr : WriteResult) (reads : List ReadResult)
    (env : AppEnv) (sid : String) (s : Session)
    (hs : lookupSession tbl sid = some s)
    (hc : s.lastActive ≤ now) :
    (∀ s2, lookupSession (handleRequest cfg req tbl now dial wr reads env).table sid
        = some s2 →
      s.lastActive ≤ s2.lastActive ∧
        (s2.lastActive = s.lastActive ∨ s2.lastActive = now)) ∧
    (∀ m, cfg.isAppMode = false → admissionBlocked cfg req = false →
      sessionIdOf req = sid → (sessionIdOf req == "") = false →
      req.method = Method.post → req.body.isEmpty = false →
      wr = WriteResult.errW m →
      (handleRequest cfg req tbl now dial wr reads env).status = 500 ∧
      lookupSession (handleRequest cfg req tbl now dial wr reads env).table sid
        = some { s with lastActive := now }) := by
  constructor
  · intro s2 hs2
    rcases lookup_handleRequest_table cfg req tbl now dial wr reads env sid with
      heq | ⟨hk, s3, h3, hla⟩
    · rw [heq, hs] at hs2
      have : s = s2 := Option.some.inj hs2
      subst this
      exact ⟨Nat.le_refl _, Or.inl rfl⟩
    · rw [h3] at hs2
      have : s3 = s2 := Option.some.inj hs2
      subst this
      rw [hla]
      exact ⟨hc, Or.inr rfl⟩
  · intro m hm ha hsideq hsid hpost hb hwr
    subst hwr
    subst hsideq
    rw [handleRequest_proxy cfg req tbl now dial (WriteResult.errW m) reads env hm,
      handleProxy_hit cfg req tbl now dial (WriteResult.errW m) reads s ha hsid hs,
      sessionBody_post_errW req tbl (sessionIdOf req) s now reads m _ hpost hb]
    exact ⟨rfl, lookupSession_storeSession_self tbl (sessionIdOf req) _⟩

theorem cleanupPass_fst (tbl : SessionTable) (now : Nat) :
    (cleanupPass tbl now).fst =
      tbl.filter (fun e => decide (now - e.snd.lastActive ≤ idleLimitSeconds)) := by
  induction tbl with
  | nil => rfl
  | cons e rest ih =>
    obtain ⟨k1, s1⟩ := e
    by_cases h1 : now - s1.lastActive > idleLimitSeconds
    · have h2 : ¬(now ≤ idleLimitSeconds + s1.lastActive) := by omega
      simp [cleanupPass, List.filter_cons, h1, h2, ih]
    · have h2 : now ≤ idleLimitSeconds + s1.lastActive := by omega
      simp [cleanupPass, List.filter_cons, h1, h2, ih]

theorem cleanupPass_snd (tbl : SessionTable) (now : Nat) :
    (cleanupPass tbl now).snd =
      tbl.filterMap (fun e =>
        if now - e.snd.lastActive > idleLimitSeconds then some e.snd.connId
        else none) := by
  induction tbl with
  | nil => rfl
  | cons e rest ih =>
    obtain ⟨k1, s1⟩ := e
    by_cases h1 : now - s1.lastActive > idleLimitSeconds
    · simp [cleanupPass, List.filterMap_cons, h1, ih]
    · simp [cleanupPass, List.filterMap_cons, h1, ih]

theorem cleanupPass_keeps (tbl : SessionTable) (now : Nat) (k : String) (s : Session)
    (hl : lookupSession tbl k = some s)
    (hfresh : now - s.lastActive ≤ idleLimitSeconds) :
    lookupSession (cleanupPass tbl now).fst k = some s := by
  induction tbl with
  | nil => simp [lookupSession] at hl
  | cons e rest ih =>
    obtain ⟨k1, s1⟩ := e
    by_cases hk : k1 = k
    · subst hk
      have hs1 : s1 = s := by
        simpa [lookupSession] using hl
      subst hs1
      have h2 : ¬(now - s1.lastActive > idleLimitSeconds) := by omega
      simp [cleanupPass, h2, lookupSession]
    · have hl2 : lookupSession rest k = some s := by
        simpa [lookupSession, hk] using hl
      by_cases h1 : now - s1.lastActive > idleLimitSeconds
      · simp [cleanupPass, h1]
        exact ih hl2
      · simp [cleanupPass, h1, lookupSession, hk]
        exact ih hl2

/-- C8: one reaper pass with a single sampled clock value removes from
the table exactly the records whose lastActive is strictly more than
the 5-minute idle limit in the past and closes exactly the connections
of those records; every record at or under the limit is kept unchanged
(and its connection is not in the closed list); the sweep runs once per
60-second sleep, and the idle limit equals 5 minutes.  (The per-record
mutex acquisition of the source is not representable in this sequential
model; each record inspection is modelled as atomic.) -/
theorem c8_reaper_pass (tbl : SessionTable) (now t : Nat) :
    (cleanupPass tbl now).fst =
      tbl.filter (fun e => decide (now - e.snd.lastActive ≤ idleLimitSeconds)) ∧
    (cleanupPass tbl now).snd =
      tbl.filterMap (fun e =>
        if now - e.snd.lastActive > idleLimitSeconds then some e.snd.connId
        else none) ∧
    (∀ k s, lookupSession tbl k = some s →
      now - s.lastActive ≤ idleLimitSeconds →
      lookupSession (cleanupPass tbl now).fst k = some s) ∧
    (reaperStep (tbl, t)).snd = t + reaperIntervalSeconds ∧
    reaperIntervalSeconds = 60 ∧ idleLimitSeconds = 5 * 60 :=
  ⟨cleanupPass_fst tbl now, cleanupPass_snd tbl now,
    fun k s h1 h2 => cleanupPass_keeps tbl now k s h1 h2, rfl, rfl, rfl⟩

/-- C9: evidence of the duplicate-dial race in the session-creation
path (main.go lines 221-238).  With the interleaving in which both
handlers pass sessions.Load before either calls sessions.Store (steps:
load 0, load 1, dial 0, dial 1, store 0, store 1), both handlers dial,
the second Store overwrites the first, and the losing connection
(conn 10) is left open, unreferenced by the table, and is never closed:
the source has no Close call on this path, so the claimed
"loser closes its freshly-dialed backend" does not happen. -/
theorem c9_race_leak :
    (raceRun [false, true, false, true, false, true] raceInit).entry = some 20 ∧
    (raceRun [false, true, false, true, false, true] raceInit).openConns = [10, 20] ∧
    (raceRun [false, true, false, true, false, true] raceInit).closedConns = [] ∧
    (raceRun [false, true, false, true, false, true] raceInit).thread0 =
      CreatePhase.haveSession 10 ∧
    (raceRun [false, true, false, true, false, true] raceInit).thread1 =
      CreatePhase.haveSession 20 ∧
    (raceRun [false, true, false, true, false, true] raceInit).entry ≠ some 10 := by
  refine ⟨rfl, rfl, rfl, rfl, rfl, ?_⟩
  decide

/-- C10: in application mode every request is handed to
handleApplication before the admission filter, the decoration block and
the session-id derivation run: the outcome is independent of the
request, the session table is untouched, nothing is dialed or written,
no 400 or 403 is ever produced, and (provided the configured command
tokenizes non-empty) a pipe-creation or Start failure yields 500 with
the error text and no spawned process, while a successful start spawns
exactly one process per request, drains its stdout and stderr to the
log only when debug is set, and answers 200 with an empty body on zero
exit or 500 with the error text on non-zero exit. -/
theorem c10_app_mode (cfg : Config) (req : Request) (tbl : SessionTable)
    (now : Nat) (dial : DialResult) (wr : WriteResult) (reads : List ReadResult)
    (env : AppEnv) (out : Outcome)
    (hout : out = handleRequest cfg req tbl now dial wr reads env)
    (hm : cfg.isAppMode = true)
    (hf : (goFields cfg.appCommand).isEmpty = false) :
    out = handleApplication cfg env tbl ∧
    out.table = tbl ∧ out.lookups = 0 ∧ out.dialed = [] ∧ out.wrote = [] ∧
    out.drainEvents = [] ∧ out.decorated = false ∧
    out.status ≠ 400 ∧ out.status ≠ 403 ∧
    (∀ m, env.stdoutPipe = PipeResult.errP m →
      out.status = 500 ∧ out.body = m ∧ out.spawned = 0) ∧
    (env.stdoutPipe = PipeResult.okP →
      ∀ m, env.stderrPipe = PipeResult.errP m →
      out.status = 500 ∧ out.body = m ∧ out.spawned = 0) ∧
    (env.stdoutPipe = PipeResult.okP → env.stderrPipe = PipeResult.okP →
      ∀ m, env.start = StartResult.errS m →
      out.status = 500 ∧ out.body = m ∧ out.spawned = 0) ∧
    (env.stdoutPipe = PipeResult.okP → env.stderrPipe = PipeResult.okP →
      env.start = StartResult.okS →
      out.spawned = 1 ∧
      out.logs = (if cfg.debug then
          env.stdoutLines.map (fun l => "Application stdout: " ++ l) ++
          env.stderrLines.map (fun l => "Application stderr: " ++ l)
        else []) ∧
      (env.wait = WaitResult.exitZero → out.status = 200 ∧ out.body = "") ∧
      (∀ m, env.wait = WaitResult.exitErr m →
        out.status = 500 ∧ out.body = m)) := by
  subst hout
  rw [handleRequest_app cfg req tbl now dial wr reads env hm]
  obtain ⟨sp, ep, st, wa, ol, el⟩ := env
  cases sp <;> cases ep <;> cases st <;> cases wa <;>
    simp [handleApplication, hf, httpError, baseOutcome]

/-! ## Witnesses -/

/-- Witness for C1 at concrete inputs: with allow-direct set and all
three headers empty, the handler answers 400 "Missing session ID" and
touches nothing. -/
theorem c1_witness :
    cfgW.isAppMode = false ∧
    admissionBlocked cfgW reqEmptyW = false ∧
    (handleRequest cfgW reqEmptyW [] 0 (DialResult.okD 1) WriteResult.okW []
      envW).status = 400 ∧
    (handleRequest cfgW reqEmptyW [] 0 (DialResult.okD 1) WriteResult.okW []
      envW).table = [] ∧
    (handleRequest cfgW reqEmptyW [] 0 (DialResult.okD 1) WriteResult.okW []
      envW).lookups = 0 := by
  have h := c1_session_id_derivation cfgW reqEmptyW [] 0 (DialResult.okD 1)
    WriteResult.okW [] envW _ rfl (by decide) (by decide)
  have h4 := h.2 rfl rfl rfl
  exact ⟨by decide, by decide, h4.1, h4.2.2.1, h4.2.2.2.1⟩

/-- Witness for C2 at concrete inputs: one full chunk then a short
read. -/
theorem c2_witness :
    (∀ r ∈ readsW, isFatalRead r = false) ∧
    (∀ r ∈ readsW, readLen r ≤ 8192) ∧
    lookupSession tblW (sessionIdOf reqGetW) = some sessW ∧
    (handleRequest cfgW reqGetW tblW 5 (DialResult.okD 1) WriteResult.okW readsW
      envW).drainEvents =
      (takeThrough stopRead readsW).flatMap
        (fun r => [DrainEvent.setReadDeadline 50, DrainEvent.readCall r]) ∧
    (drain readsW).snd =
      Except.ok ((takeThrough stopRead readsW).flatMap chunkBytes) := by
  have hnf : ∀ r ∈ readsW, isFatalRead r = false := by
    intro r hr
    simp only [readsW, List.mem_cons, List.not_mem_nil, or_false] at hr
    rcases hr with rfl | rfl
    · rfl
    · rfl
  have hwf : ∀ r ∈ readsW, readLen r ≤ 8192 := by
    intro r hr
    simp only [readsW, List.mem_cons, List.not_mem_nil, or_false] at hr
    rcases hr with rfl | rfl
    · show (List.replicate 8192 (0 : Byte)).length ≤ 8192
      rw [List.length_replicate]
    · norm_num [readLen]
  have h := c2_drain_loop cfgW reqGetW tblW 5 (DialResult.okD 1) WriteResult.okW
    readsW envW _ sessW rfl (by decide) (by decide) (by decide) (by decide) rfl
    hnf hwf
  exact ⟨hnf, hwf, by decide, h.1, h.2.2⟩

/-- Witness for C3 at concrete inputs: the drained bytes 0x68 0x65 come
back as body "6865". -/
theorem c3_witness :
    (handleRequest cfgW reqGetW tblW 5 (DialResult.okD 1) WriteResult.okW reads3W
      envW).status = 200 ∧
    (handleRequest cfgW reqGetW tblW 5 (DialResult.okD 1) WriteResult.okW reads3W
      envW).body = "6865" ∧
    (∃ bs, (drain reads3W).snd = Except.ok bs ∧
      (handleRequest cfgW reqGetW tblW 5 (DialResult.okD 1) WriteResult.okW reads3W
        envW).body = hexEncode bs ∧
      hexDecode (handleRequest cfgW reqGetW tblW 5 (DialResult.okD 1)
        WriteResult.okW reads3W envW).body = some bs ∧
      ((handleRequest cfgW reqGetW tblW 5 (DialResult.okD 1) WriteResult.okW
        reads3W envW).body).data.all isLowerHex = true ∧
      (bs = [] → (handleRequest cfgW reqGetW tblW 5 (DialResult.okD 1)
        WriteResult.okW reads3W envW).body = "")) := by
  refine ⟨rfl, rfl, ?_⟩
  exact c3_get_hex_roundtrip cfgW reqGetW tblW 5 (DialResult.okD 1)
    WriteResult.okW reads3W envW _ rfl (by decide) rfl rfl

/-- Witness for C4 at concrete inputs: a two-byte POST body is written
once, unchanged, to connection 7. -/
theorem c4_witness :
    lookupSession tblW (sessionIdOf reqPostW) = some sessW ∧
    (handleRequest cfgW reqPostW tblW 5 (DialResult.okD 1) WriteResult.okW []
      envW).status = 200 ∧
    (handleRequest cfgW reqPostW tblW 5 (DialResult.okD 1) WriteResult.okW []
      envW).body = "" ∧
    (handleRequest cfgW reqPostW tblW 5 (DialResult.okD 1) WriteResult.okW []
      envW).wrote = [(7, [104, 105])] := by
  have h := c4_post_write cfgW reqPostW tblW 5 (DialResult.okD 1) WriteResult.okW
    [] envW _ sessW rfl (by decide) (by decide) (by decide) (by decide) rfl rfl
  exact ⟨by decide, h.1, h.2.1, by decide⟩

/-- Witness for C5 at concrete inputs: a fatal first read yields 500
with the error text and the record stays in the table. -/
theorem c5_witness :
    (drain readsFW).snd = Except.error "conn reset" ∧
    (handleRequest cfgW reqGetW tblW 5 (DialResult.okD 1) WriteResult.okW readsFW
      envW).status = 500 ∧
    (handleRequest cfgW reqGetW tblW 5 (DialResult.okD 1) WriteResult.okW readsFW
      envW).body = "conn reset" ∧
    (∃ s2, lookupSession (handleRequest cfgW reqGetW tblW 5 (DialResult.okD 1)
        WriteResult.okW readsFW envW).table (sessionIdOf reqGetW) = some s2 ∧
      s2.lastActive = 5) := by
  have h := c5_fatal_read_500 cfgW reqGetW tblW 5 (DialResult.okD 1)
    WriteResult.okW readsFW envW _ sessW 0 "conn reset" rfl (by decide)
    (by decide) (by decide) (Or.inl (by decide)) rfl rfl
  exact ⟨rfl, h.1, h.2.1, h.2.2⟩

/-- Witness for C6 at concrete inputs: the same header-less request is
403 without allow-direct and 400 with it. -/
theorem c6_witness :
    reqEmptyW.cfConnectingIp = "" ∧
    (handleRequest cfgNoDirW reqEmptyW tblW 5 (DialResult.okD 1) WriteResult.okW
      [] envW).status = 403 ∧
    (handleRequest cfgW reqEmptyW tblW 5 (DialResult.okD 1) WriteResult.okW []
      envW).status = 400 := by
  have h1 := c6_admission cfgNoDirW reqEmptyW tblW 5 (DialResult.okD 1)
    WriteResult.okW [] envW _ rfl (by decide) rfl
  have h2 := c6_admission cfgW reqEmptyW tblW 5 (DialResult.okD 1)
    WriteResult.okW [] envW _ rfl (by decide) rfl
  exact ⟨rfl, (h1.1 rfl).1, (h2.2 rfl rfl rfl).1⟩

/-- Witness for C7 at concrete inputs: a POST whose write fails with
"boom" returns 500 and still moves lastActive from 3 to 5. -/
theorem c7_witness :
    lookupSession tblW "sid" = some sessW ∧
    sessW.lastActive ≤ 5 ∧
    (handleRequest cfgW reqPostW tblW 5 (DialResult.okD 1)
      (WriteResult.errW "boom") [] envW).status = 500 ∧
    lookupSession (handleRequest cfgW reqPostW tblW 5 (DialResult.okD 1)
      (WriteResult.errW "boom") [] envW).table "sid" =
      some { connId := 7, lastActive := 5, buffer := [] } := by
  have h := c7_last_active cfgW reqPostW tblW 5 (DialResult.okD 1)
    (WriteResult.errW "boom") [] envW "sid" sessW (by decide) (by decide)
  have h2 := h.2 "boom" (by decide) (by decide) (by decide) (by decide) rfl
    (by decide) rfl
  exact ⟨by decide, by decide, h2.1, h2.2⟩

/-- Witness for C8 at concrete inputs: at time 400 the record idle
since 0 is evicted and its connection 1 closed; the record active at
400 survives. -/
theorem c8_witness :
    (cleanupPass tbl8W 400).fst =
      tbl8W.filter (fun e => decide (400 - e.snd.lastActive ≤ idleLimitSeconds)) ∧
    (cleanupPass tbl8W 400).fst = [("b", { connId := 2, lastActive := 400, buffer := [] })] ∧
    (cleanupPass tbl8W 400).snd = [1] := by
  have h := c8_reaper_pass tbl8W 400 0
  exact ⟨h.1, by decide, by decide⟩

/-- Witness for C10 at concrete inputs: in application mode with a
successful run, the response is 200 with empty body, one process is
spawned, and the session table is untouched. -/
theorem c10_witness :
    cfgAppW.isAppMode = true ∧
    (goFields cfgAppW.appCommand).isEmpty = false ∧
    (handleRequest cfgAppW reqGetW tblW 5 (DialResult.okD 1) WriteResult.okW []
      envW).status = 200 ∧
    (handleRequest cfgAppW reqGetW tblW 5 (DialResult.okD 1) WriteResult.okW []
      envW).spawned = 1 ∧
    (handleRequest cfgAppW reqGetW tblW 5 (DialResult.okD 1) WriteResult.okW []
      envW).table = tblW := by
  have h := c10_app_mode cfgAppW reqGetW tblW 5 (DialResult.okD 1)
    WriteResult.okW [] envW _ rfl (by decide) (by decide)
  exact ⟨by decide, by decide, rfl, rfl, h.2.1⟩
